import Mathlib

/-!
# Verification of the IOT-Motor MQTT consumer pipeline

A shallow embedding of the ingestion / anomaly-detection / fan-out pipeline of
`iot_app/management/commands/run_mqtt_consumer.py` and of the Django model
declarations in `iot_app/models.py`.

Conventions of the embedding:
* Python floats (sensor values, thresholds, clock seconds) are modelled as
  exact rationals `ℚ`; datetimes are modelled as a rational number of seconds
  on the UTC timeline.
* `None`-able Python values become `Option`; a Python exception escaping a
  function becomes `Except.error`.
* Persisted rows are plain records; query results (such as the
  "latest row per metric" or the descending-ordered log list) are passed to
  the embedded functions as explicit inputs, mirroring the queries in
  `_process_and_notify_dashboard`.
* Log-message strings keep the exact German text of the source; where Python
  formats a float with a fixed number of decimals the embedding renders the
  exact rational instead (no claim inspects that rendering).
-/

set_option autoImplicit false
set_option maxRecDepth 8000

namespace IotMotor

/-- Seconds on the UTC timeline (Python datetimes, `total_seconds`). -/
abbrev Time := ℚ

/-- The `message_type` choices of `MalfunctionLog` (models.py lines 96-100). -/
inductive Severity where
  | INFO
  | WARNING
  | ERROR
deriving DecidableEq, Repr

/-- The `metric_type` choices used by the consumer (`temperature`, `current`,
`torque`). -/
inductive Metric where
  | current
  | temperature
  | torque
deriving DecidableEq, Repr

/-- Python's `str.capitalize()` applied to the metric name, as used in the
log descriptions of the consumer. -/
def Metric.capitalized : Metric → String
  | Metric.current => "Current"
  | Metric.temperature => "Temperature"
  | Metric.torque => "Torque"

/-- A JSON payload field as the Python handler sees it: absent (`None` from
`dict.get`), a number (int and float collapse to `ℚ`), a string, or a bool. -/
inductive PyValue where
  | none
  | num (q : ℚ)
  | str (s : String)
  | bool (b : Bool)
deriving DecidableEq, Repr

/-- Python's `payload.get('value') == -1` (run_mqtt_consumer.py line 291):
true exactly for the number `-1` (int or float); Python bools are numeric
but equal `0` or `1`, never `-1`; strings and `None` compare unequal. -/
def pyEqNegOne : PyValue → Bool
  | PyValue.num q => decide (q = -1)
  | _ => false

/-! ## Freshness evaluator (`is_data_fresh`, run_mqtt_consumer.py lines 410-413) -/

/-- What `is_data_fresh` looks at on a model instance: its (nullable)
`timestamp` attribute. -/
structure TimedObj where
  timestamp : Option Time
deriving DecidableEq

/-- `is_data_fresh(data_object, threshold_seconds)`:
`if data_object and data_object.timestamp: return
(timezone.now() - data_object.timestamp).total_seconds() < threshold_seconds`,
else `False`. The wall clock is passed explicitly as `now`. -/
def is_data_fresh (data_object : Option TimedObj) (now : Time)
    (threshold_seconds : ℚ) : Bool :=
  match data_object with
  | Option.some d =>
    match d.timestamp with
    | Option.some ts => decide (now - ts < threshold_seconds)
    | Option.none => false
  | Option.none => false

/-! ## Deviation classification (run_mqtt_consumer.py lines 496-503) -/

/-- Python's `abs` on a rational, written so that the kernel can evaluate it. -/
def ratAbs (q : ℚ) : ℚ :=
  if q < 0 then -q else q

/-- The per-metric deviation test of `_process_and_notify_dashboard`:
```
is_currently_deviating = False
if raw_value is not None and twin_value is not None:
    if twin_value != 0:
        deviation = abs((raw_value - twin_value) / twin_value) * 100
        if deviation > deviation_threshold:
            is_currently_deviating = True
    elif raw_value != 0 and twin_value == 0:
        is_currently_deviating = True
```
-/
def is_currently_deviating (raw_value twin_value : Option ℚ)
    (deviation_threshold : ℚ) : Bool :=
  match raw_value, twin_value with
  | Option.some r, Option.some t =>
    if t ≠ 0 then
      decide (ratAbs ((r - t) / t) * 100 > deviation_threshold)
    else if r ≠ 0 ∧ t = 0 then
      true
    else
      false
  | _, _ => false

/-! ## Log entries created by the pipeline

The dicts passed to `MalfunctionLog.objects.create` by the consumer
(`message_type`, `description`, `motor_state`, `emergency_stop_active`;
the `timestamp` is wall-clock at creation and inspected by no claim). -/

structure LogCreate where
  message_type : Severity
  description : String
  motor_state : String
  emergency_stop_active : Bool
deriving DecidableEq, Repr

/-! ## Deviation detector (run_mqtt_consumer.py lines 489-525) -/

/-- Description of a deviation WARNING log
(`f"{metric}-Abweichung > {threshold:.1f}% erkannt (Raw: {raw:.2f}, Twin: {twin:.2f})"`;
the fixed-decimal float rendering is abstracted to exact rationals). -/
def deviation_warning_desc (m : Metric) (th r t : ℚ) : String :=
  m.capitalized ++ "-Abweichung > " ++ toString th ++ "% erkannt (Raw: " ++
    toString r ++ ", Twin: " ++ toString t ++ ")"

/-- Description of a deviation-resolved INFO log. -/
def deviation_resolved_desc (m : Metric) : String :=
  m.capitalized ++ "-Abweichung behoben. Motor läuft normal."

/-- One metric's slice of the deviation loop of
`_process_and_notify_dashboard`: given the metric's previous
`last_anomaly_state` entry and its raw/twin values, returns the new state
entry and the log appended to `logs_to_create` (if any).
```
if is_currently_deviating:
    if not last_anomaly_state.get(metric_name, False):
        logs_to_create.append({... 'WARNING' ...}); last_anomaly_state[m] = True
elif not is_currently_deviating and last_anomaly_state.get(metric_name, False):
    logs_to_create.append({... 'INFO' ...}); last_anomaly_state[m] = False
```
-/
def deviation_step (m : Metric) (last_state : Bool) (raw_value twin_value : Option ℚ)
    (deviation_threshold : ℚ) : Bool × Option LogCreate :=
  if is_currently_deviating raw_value twin_value deviation_threshold then
    if last_state then
      (true, Option.none)
    else
      (true, Option.some
        ⟨Severity.WARNING,
          deviation_warning_desc m deviation_threshold (raw_value.getD 0) (twin_value.getD 0),
          "unbekannt", false⟩)
  else
    if last_state then
      (false, Option.some ⟨Severity.INFO, deviation_resolved_desc m, "normal", false⟩)
    else
      (false, Option.none)

/-- Iterating `deviation_step` for one metric over a sequence of
aggregation cycles, collecting the emitted logs in order. -/
def deviation_run (m : Metric) (state : Bool) (inputs : List (Option ℚ × Option ℚ))
    (deviation_threshold : ℚ) : Bool × List LogCreate :=
  match inputs with
  | [] => (state, [])
  | (r, t) :: rest =>
    let s1 := deviation_step m state r t deviation_threshold
    let sF := deviation_run m s1.1 rest deviation_threshold
    (sF.1, s1.2.toList ++ sF.2)

/-! ## Prediction anomaly tracker (run_mqtt_consumer.py lines 284-337) -/

/-- `Command.PREDICTION_ERROR_THRESHOLD` (run_mqtt_consumer.py line 36). -/
def PREDICTION_ERROR_THRESHOLD : Nat := 10

/-- One metric's entries in `prediction_error_counts` and
`error_active_flags`. -/
structure PredState where
  count : Nat
  error_active : Bool
deriving DecidableEq, Repr

/-- Description of a consecutive-bad-prediction WARNING
(`f"{metric}-Vorhersage ist schlecht (-1). Aufeinanderfolgende schlechte
Vorhersagen: {count}/{threshold}."`). -/
def prediction_warning_desc (m : Metric) (c : Nat) : String :=
  m.capitalized ++ "-Vorhersage ist schlecht (-1). Aufeinanderfolgende schlechte Vorhersagen: " ++
    toString c ++ "/" ++ toString PREDICTION_ERROR_THRESHOLD ++ "."

/-- Description of the threshold-reached ERROR
(`f"{metric}-Vorhersage ist schlecht (-1) {threshold} Mal in Folge."`). -/
def prediction_error_desc (m : Metric) : String :=
  m.capitalized ++ "-Vorhersage ist schlecht (-1) " ++
    toString PREDICTION_ERROR_THRESHOLD ++ " Mal in Folge."

/-- Description of the prediction-resolved INFO
(`f"INFO: {metric}-Anomalie behoben. Vorhersage ist wieder normal."`). -/
def prediction_resolved_desc (m : Metric) : String :=
  "INFO: " ++ m.capitalized ++ "-Anomalie behoben. Vorhersage ist wieder normal."

/-- The state-machine core of `Command._handle_prediction_data`
(lines 291-337): given the metric's current `(count, error_active)` state and
the payload's `value` field, returns the new state and the malfunction log
saved during this message (if any). -/
def handle_prediction_step (m : Metric) (s : PredState) (v : PyValue) :
    PredState × Option LogCreate :=
  if pyEqNegOne v then
    if s.error_active then
      (s, Option.none)
    else
      let c := s.count + 1
      if PREDICTION_ERROR_THRESHOLD ≤ c then
        (⟨0, true⟩, Option.some
          ⟨Severity.ERROR, prediction_error_desc m, "fehlerhaft", true⟩)
      else
        (⟨c, s.error_active⟩, Option.some
          ⟨Severity.WARNING, prediction_warning_desc m c, "potenziell fehlerhaft", false⟩)
  else
    let log :=
      if decide (0 < s.count) || s.error_active then
        Option.some ⟨Severity.INFO, prediction_resolved_desc m, "normal", false⟩
      else
        Option.none
    (⟨0, false⟩, log)

/-- Iterating `handle_prediction_step` over a sequence of prediction messages
for one metric, collecting the emitted logs in order. -/
def handle_prediction_run (m : Metric) (s : PredState) (vs : List PyValue) :
    PredState × List LogCreate :=
  match vs with
  | [] => (s, [])
  | v :: rest =>
    let s1 := handle_prediction_step m s v
    let sF := handle_prediction_run m s1.1 rest
    (sF.1, s1.2.toList ++ sF.2)

/-! ## Timestamp parsing (`make_aware_from_iso`, run_mqtt_consumer.py
lines 743-759)

An ISO-8601 timestamp string is modelled by the instant its digits denote and
whether it carries a zone offset. `datetime.fromisoformat` plus UTC conversion
is then: a naive string keeps its value and is declared UTC
(`timezone.make_aware(dt, pytz.utc)`), an aware string is converted to UTC
(`dt.astimezone(pytz.utc)`), i.e. local value minus offset. -/

inductive ISOTimestamp where
  | naive (localValue : ℚ)
  | withOffset (localValue offsetSeconds : ℚ)
deriving DecidableEq

/-- The UTC instant produced by `make_aware_from_iso` for a nonempty ISO
string. -/
def make_aware_from_iso : ISOTimestamp → Time
  | ISOTimestamp.naive v => v
  | ISOTimestamp.withOffset v off => v - off

/-! ## Persisting prediction data (claim C5)

`Command._save_prediction_data` (lines 714-726) calls
`PredictionData.objects.create(timestamp=..., metric_type=..., status_value=payload.get('value'))`,
but the `PredictionData` model (models.py lines 182-207) declares only the
fields `timestamp, metric_type, predicted_value, anomaly_score, rul_hours` —
there is no `status_value` field, and Django's `Model.__init__` raises
`TypeError` for a keyword argument that is not a model field. -/

/-- The field names of the `PredictionData` model, from models.py
lines 182-207. -/
def prediction_data_fields : List String :=
  ["timestamp", "metric_type", "predicted_value", "anomaly_score", "rul_hours"]

/-- Django `Model(**kwargs)`: raises `TypeError` on the first keyword argument
that is not a declared model field, otherwise constructs the row. Only the
keyword names matter for this check. -/
def django_create (fields : List String) (kwarg_names : List String) :
    Except String Unit :=
  match kwarg_names.find? (fun k => !(fields.contains k)) with
  | Option.some k => Except.error (k ++ " is an invalid keyword argument")
  | Option.none => Except.ok ()

/-- `Command._save_prediction_data(payload, metric_type)`: the keyword names it
passes to `PredictionData.objects.create` are `timestamp`, `metric_type` and
`status_value` (lines 722-726); the payload's value and the metric do not
affect the field-name check. -/
def save_prediction_data (_payload_value : PyValue) (_metric : Metric) :
    Except String Unit :=
  django_create prediction_data_fields (["timestamp", "metric_type", "status_value"])

/-- The two notifications `_handle_prediction_data` sends after the save
(lines 341-343): one `plot_data_point` signal and one dashboard update. -/
structure NotifyCount where
  plot_data_point : Nat
  dashboard_update : Nat
deriving DecidableEq

/-- Tail of `Command._handle_prediction_data` (lines 339-343): the save is
awaited first, then the plot notification, then the dashboard update; an
exception raised by the save aborts the handler before either notification. -/
def handle_prediction_persist_and_notify (v : PyValue) (m : Metric) :
    Except String NotifyCount := do
  let _ ← save_prediction_data v m
  Except.ok ⟨1, 1⟩

/-! ## Persisting live data (claim C6)

`LiveData` (models.py lines 26-45) declares
`timestamp = models.DateTimeField(auto_now_add=True)`: on insert Django sets
the column to the current time and discards any value passed by the caller.
The remaining columns are nullable floats stored as given. -/

/-- A live-topic payload as `_save_live_data` reads it (lines 624-642). -/
structure LivePayload where
  timestamp : Option ISOTimestamp
  current : Option ℚ
  voltage : Option ℚ
  rpm : Option ℚ
  vibration : Option ℚ
  temp : Option ℚ
  torque : Option ℚ
  run_time : Option ℚ
deriving DecidableEq

/-- A persisted `LiveData` row as read back from the database. -/
structure LiveRow where
  timestamp : Time
  current : Option ℚ
  voltage : Option ℚ
  rpm : Option ℚ
  vibration : Option ℚ
  temp : Option ℚ
  torque : Option ℚ
  run_time : Option ℚ
deriving DecidableEq

/-- `DateTimeField(auto_now_add=True)` on insert: the stored value is the
current time; the value provided by the caller is ignored. -/
def auto_now_add_store (_provided : Option Time) (now : Time) : Time :=
  now

/-- `Command._save_live_data(payload)` (lines 624-642) followed by reading the
row back: the handler parses the payload timestamp (or takes `timezone.now()`)
and passes it to `LiveData.objects.create`, whose `timestamp` field has
`auto_now_add=True`. -/
def save_live_data (payload : LivePayload) (now : Time) : LiveRow :=
  let ts : Option Time :=
    match payload.timestamp with
    | Option.some s => Option.some (make_aware_from_iso s)
    | Option.none => Option.some now
  { timestamp := auto_now_add_store ts now
    current := payload.current
    voltage := payload.voltage
    rpm := payload.rpm
    vibration := payload.vibration
    temp := payload.temp
    torque := payload.torque
    run_time := payload.run_time }

/-! ## The anomaly aggregator (`_process_and_notify_dashboard`,
run_mqtt_consumer.py lines 364-622)

The database reads of the method become explicit inputs: the latest raw row
per metric, the latest twin row, and the `MalfunctionLog` table ordered by
timestamp descending (the order every query in the method uses). -/

/-- A `RawData` row (models.py lines 126-150): `timestamp` and `value` are
non-nullable columns. -/
structure RawRecord where
  timestamp : Time
  value : ℚ
deriving DecidableEq

/-- A `TwinData` row (models.py lines 47-67): nullable float columns. -/
structure TwinRecord where
  timestamp : Time
  current : Option ℚ
  voltage : Option ℚ
  rpm : Option ℚ
  vibration : Option ℚ
  temp : Option ℚ
  torque : Option ℚ
  run_time : Option ℚ
deriving DecidableEq

/-- A `MalfunctionLog` row (models.py lines 92-123), restricted to the fields
the aggregator reads. -/
structure MalLog where
  timestamp : Time
  message_type : Severity
  description : String
  acknowledged : Bool
deriving DecidableEq

/-- A per-metric dictionary (`latest_raw_data`, `last_anomaly_state`,
`prediction_error_counts`, `error_active_flags`). -/
structure MetricMap (α : Type) where
  current : α
  temperature : α
  torque : α
deriving DecidableEq

def MetricMap.get {α : Type} (mm : MetricMap α) : Metric → α
  | Metric.current => mm.current
  | Metric.temperature => mm.temperature
  | Metric.torque => mm.torque

/-- The inputs `_process_and_notify_dashboard` obtains from configuration,
in-memory state and database queries before computing the anomaly status. -/
structure AggInput where
  now : Time
  data_freshness_threshold : ℚ
  deviation_threshold : ℚ
  latest_raw : MetricMap (Option RawRecord)
  latest_twin : Option TwinRecord
  last_anomaly_state : MetricMap Bool
  prediction_error_counts : MetricMap Nat
  error_active_flags : MetricMap Bool
  /-- all `MalfunctionLog` rows, ordered by timestamp descending. -/
  malfunction_logs : List MalLog
deriving DecidableEq

/-- The composite `anomaly_status` sent to the dashboard. -/
structure AnomalyStatus where
  detected : Bool
  message : String
deriving DecidableEq

/-- The outputs of one aggregation cycle that the claims are about: the
composite status, the updated `last_anomaly_state`, and the deviation logs
appended to `logs_to_create` (saved at lines 585-587). -/
structure AggOutput where
  status : AnomalyStatus
  last_anomaly_state : MetricMap Bool
  logs_to_create : List LogCreate
deriving DecidableEq

/-- View of a raw row as the object `is_data_fresh` receives. -/
def raw_timed (r : Option RawRecord) : Option TimedObj :=
  r.map (fun x => ⟨Option.some x.timestamp⟩)

/-- View of a twin row as the object `is_data_fresh` receives. -/
def twin_timed (t : Option TwinRecord) : Option TimedObj :=
  t.map (fun x => ⟨Option.some x.timestamp⟩)

/-- The staleness guard of lines 480-484: any required raw row or the twin row
missing, or any of them stale. -/
def insufficient_or_stale (inp : AggInput) : Bool :=
  inp.latest_raw.current.isNone || inp.latest_raw.temperature.isNone ||
  inp.latest_raw.torque.isNone || inp.latest_twin.isNone ||
  !(is_data_fresh (raw_timed inp.latest_raw.current) inp.now inp.data_freshness_threshold) ||
  !(is_data_fresh (raw_timed inp.latest_raw.temperature) inp.now inp.data_freshness_threshold) ||
  !(is_data_fresh (raw_timed inp.latest_raw.torque) inp.now inp.data_freshness_threshold) ||
  !(is_data_fresh (twin_timed inp.latest_twin) inp.now inp.data_freshness_threshold)

/-- `getattr(latest_twin_data, twin_metric_attr, None)` with
`twin_metric_attr = 'temp' if metric_name == 'temperature' else metric_name`
(lines 492-493). -/
def twin_value_for (t : Option TwinRecord) : Metric → Option ℚ
  | Metric.current => t.bind TwinRecord.current
  | Metric.temperature => t.bind TwinRecord.temp
  | Metric.torque => t.bind TwinRecord.torque

/-- The deviation loop over `metrics_to_compare = ['current', 'temperature',
'torque']` (lines 489-525): new `last_anomaly_state`, the `logs_to_create`
list in loop order, and whether any metric is currently deviating
(`deviation_anomaly_active`). -/
def deviation_cycle (inp : AggInput) : MetricMap Bool × List LogCreate × Bool :=
  let step := fun (m : Metric) (last : Bool) =>
    deviation_step m last ((inp.latest_raw.get m).map RawRecord.value)
      (twin_value_for inp.latest_twin m) inp.deviation_threshold
  let sC := step Metric.current inp.last_anomaly_state.current
  let sT := step Metric.temperature inp.last_anomaly_state.temperature
  let sQ := step Metric.torque inp.last_anomaly_state.torque
  (⟨sC.1, sT.1, sQ.1⟩, sC.2.toList ++ sT.2.toList ++ sQ.2.toList,
    sC.1 || sT.1 || sQ.1)

/-- Whether the first list is an initial segment of the second. -/
def list_is_pref : List Char → List Char → Bool
  | [], _ => true
  | _ :: _, [] => false
  | a :: as, b :: bs => a == b && list_is_pref as bs

/-- Python's `needle in hay` substring test. -/
def str_has_sub (hay needle : String) : Bool :=
  let h := hay.toList
  (List.range (h.length + 1)).any (fun i => list_is_pref needle.toList (h.drop i))

/-- Lines 550-551: a log entry is prediction-related when its description
contains "Vorhersage ist schlecht" or "Vorhersage ist wieder normal". -/
def is_prediction_related (l : MalLog) : Bool :=
  str_has_sub l.description ("Vorhersage ist schlecht") ||
  str_has_sub l.description ("Vorhersage ist wieder normal")

/-- The query of lines 538-543: unacknowledged rows with `message_type` in
`['ERROR', 'WARNING']`, keeping the descending timestamp order. -/
def unacknowledged_errors_warnings (logs : List MalLog) : List MalLog :=
  logs.filter (fun l =>
    !l.acknowledged &&
      (match l.message_type with
       | Severity.ERROR => true
       | Severity.WARNING => true
       | Severity.INFO => false))

/-- Lines 527-531: a prediction anomaly is active when any `error_active_flags`
entry is set or any `prediction_error_counts` entry is positive. -/
def prediction_anomaly_active (inp : AggInput) : Bool :=
  (inp.error_active_flags.current || inp.error_active_flags.temperature ||
    inp.error_active_flags.torque) ||
  (decide (0 < inp.prediction_error_counts.current) ||
    decide (0 < inp.prediction_error_counts.temperature) ||
    decide (0 < inp.prediction_error_counts.torque))

def insufficient_data_message : String :=
  "Unzureichende oder veraltete Daten für die Anomalieerkennung verfügbar."

def normal_message : String := "Motor läuft normal."

def deviation_generic_message : String :=
  "WARNUNG: Abweichung zwischen Live- und Twin-Daten erkannt."

def prediction_generic_message : String :=
  "WARNUNG: Vorhersage-Anomalie erkannt."

def critical_message (d : String) : String := "KRITISCHE STÖRUNG: " ++ d

def warning_message (d : String) : String := "WARNUNG: " ++ d

/-- The anomaly-status computation of `_process_and_notify_dashboard`
(lines 468-587): the staleness guard short-circuits everything; otherwise the
deviation loop runs, the loop of lines 548-562 picks the first unacknowledged
ERROR/WARNING row that is not a prediction-related entry whose cause has been
resolved, and the precedence chain of lines 564-583 builds the status. -/
def process_and_notify_dashboard (inp : AggInput) : AggOutput :=
  if insufficient_or_stale inp then
    ⟨⟨true, insufficient_data_message⟩, inp.last_anomaly_state, []⟩
  else
    let dev := deviation_cycle inp
    let pred_active := prediction_anomaly_active inp
    let active_log :=
      (unacknowledged_errors_warnings inp.malfunction_logs).find?
        (fun l => !(is_prediction_related l && !pred_active))
    let status : AnomalyStatus :=
      match active_log with
      | Option.some l =>
        if l.message_type = Severity.ERROR then
          ⟨true, critical_message l.description⟩
        else
          ⟨true, warning_message l.description⟩
      | Option.none =>
        if dev.2.2 then
          ⟨true, deviation_generic_message⟩
        else if pred_active then
          ⟨true, prediction_generic_message⟩
        else
          ⟨false, normal_message⟩
    ⟨status, dev.1, dev.2.1⟩

/-- A cycle input whose raw-current row is missing while an unacknowledged
ERROR log entry exists simultaneously. -/
def stale_error_input : AggInput :=
  { now := 1000
    data_freshness_threshold := 60
    deviation_threshold := 10
    latest_raw := ⟨Option.none, Option.some ⟨990, 50⟩, Option.some ⟨990, 7⟩⟩
    latest_twin := Option.some ⟨990, Option.some 5, Option.none, Option.none,
      Option.none, Option.some 50, Option.some 7, Option.none⟩
    last_anomaly_state := ⟨false, false, false⟩
    prediction_error_counts := ⟨0, 0, 0⟩
    error_active_flags := ⟨false, false, false⟩
    malfunction_logs := [⟨970, Severity.ERROR, "Motor blockiert", false⟩] }

/-- An input whose `MalfunctionLog` table holds an unacknowledged WARNING that
is more recent than an unacknowledged ERROR, with all required inputs fresh
and no deviation or prediction anomaly. -/
def newer_warning_input : AggInput :=
  { now := 1000
    data_freshness_threshold := 60
    deviation_threshold := 10
    latest_raw := ⟨Option.some ⟨990, 5⟩, Option.some ⟨990, 50⟩, Option.some ⟨990, 7⟩⟩
    latest_twin := Option.some ⟨990, Option.some 5, Option.none, Option.none,
      Option.none, Option.some 50, Option.some 7, Option.none⟩
    last_anomaly_state := ⟨false, false, false⟩
    prediction_error_counts := ⟨0, 0, 0⟩
    error_active_flags := ⟨false, false, false⟩
    malfunction_logs := [⟨990, Severity.WARNING, "Warnband gerissen", false⟩,
      ⟨970, Severity.ERROR, "Motor blockiert", false⟩] }

/-- An input whose only log row is an unacknowledged ERROR, all inputs
fresh. -/
def single_error_input : AggInput :=
  { now := 1000
    data_freshness_threshold := 60
    deviation_threshold := 10
    latest_raw := ⟨Option.some ⟨990, 5⟩, Option.some ⟨990, 50⟩, Option.some ⟨990, 7⟩⟩
    latest_twin := Option.some ⟨990, Option.some 5, Option.none, Option.none,
      Option.none, Option.some 50, Option.some 7, Option.none⟩
    last_anomaly_state := ⟨false, false, false⟩
    prediction_error_counts := ⟨0, 0, 0⟩
    error_active_flags := ⟨false, false, false⟩
    malfunction_logs := [⟨970, Severity.ERROR, "Motor blockiert", false⟩] }

/-! ## The ingestion router (`_on_message_async`, run_mqtt_consumer.py
lines 154-215) -/

/-- The topics the router dispatches on. -/
inductive Topic where
  | live
  | twin
  | malfunction (sev : Severity)
  | raw (m : Metric)
  | feature (m : Metric)
  | prediction (m : Metric)
  | unknown
deriving DecidableEq

/-- What one inbound message causes, as observable through this embedding:
whether an exception escapes the MQTT callback, whether a topic handler ran on
the payload, and how many plot-point notifications and dashboard updates were
sent for it. -/
structure RouterOutcome where
  raised : Bool
  handled : Bool
  plot_notifications : Nat
  dashboard_updates : Nat
deriving DecidableEq

/-- The notification effects of each topic handler (lines 217-343):
`Except.error` models a Python exception escaping the handler. Live, twin, raw
and feature handlers send one plot notification and one dashboard update;
the malfunction handler sends only a dashboard update; the prediction handler
awaits `_save_prediction_data` before its notifications (see
`handle_prediction_persist_and_notify`); an unknown topic is only logged. -/
def handler_effects (topic : Topic) (payload_value : PyValue) :
    Except String (Nat × Nat) :=
  match topic with
  | Topic.live => Except.ok (1, 1)
  | Topic.twin => Except.ok (1, 1)
  | Topic.malfunction _ => Except.ok (0, 1)
  | Topic.raw _ => Except.ok (1, 1)
  | Topic.feature _ => Except.ok (1, 1)
  | Topic.prediction m =>
    match handle_prediction_persist_and_notify payload_value m with
    | Except.ok c => Except.ok (c.plot_data_point, c.dashboard_update)
    | Except.error e => Except.error e
  | Topic.unknown => Except.ok (0, 0)

/-- `Command._on_message_async` after JSON decoding succeeded: lines 168-171
fetch `MotorInfo.objects.first()` and, when it is `None`, write an error to
stderr and `return` before any dispatch; otherwise the topic handler runs and
any exception it raises is caught and logged by the `except` clauses of
lines 211-215, so nothing escapes the callback. -/
def on_message_async (motor_configured : Bool) (topic : Topic)
    (payload_value : PyValue) : RouterOutcome :=
  if motor_configured then
    match handler_effects topic payload_value with
    | Except.ok pd => ⟨false, decide (topic ≠ Topic.unknown), pd.1, pd.2⟩
    | Except.error _ => ⟨false, true, 0, 0⟩
  else
    ⟨false, false, 0, 0⟩

theorem ratAbs_eq_abs (q : ℚ) : ratAbs q = |q| := by
  unfold ratAbs
  split
  · exact (abs_of_neg (by assumption)).symm
  · exact (abs_of_nonneg (not_lt.mp (by assumption))).symm

/-! ## Claims C7 and C8 -/

/-- Claim C7: with both raw value `r` and twin value `t` present, the metric is
classified deviating iff `t ≠ 0 ∧ |r - t| / |t| * 100 > threshold` or
`t = 0 ∧ r ≠ 0`; with either value absent it is not counted as deviating;
with both values `0` it is not deviating. -/
theorem deviation_classification :
    (∀ r t th : ℚ,
      is_currently_deviating (Option.some r) (Option.some t) th = true ↔
        ((t ≠ 0 ∧ |r - t| / |t| * 100 > th) ∨ (t = 0 ∧ r ≠ 0))) ∧
    (∀ (tv : Option ℚ) (th : ℚ), is_currently_deviating Option.none tv th = false) ∧
    (∀ (rv : Option ℚ) (th : ℚ), is_currently_deviating rv Option.none th = false) ∧
    (∀ th : ℚ, is_currently_deviating (Option.some 0) (Option.some 0) th = false) := by
  refine ⟨?_, ?_, ?_, ?_⟩
  · intro r t th
    by_cases ht : t = 0
    · subst ht
      by_cases hr : r = 0 <;> simp [is_currently_deviating, hr]
    · have habs : ratAbs ((r - t) / t) = |r - t| / |t| := by
        rw [ratAbs_eq_abs, abs_div]
      simp [is_currently_deviating, ht, habs]
  · intro tv th
    rfl
  · intro rv th
    cases rv <;> rfl
  · intro th
    simp [is_currently_deviating]

/-- Claim C8: the freshness evaluator returns `false` when the sample is absent
or has no timestamp, and otherwise returns `true` iff the sample's age is
strictly below the threshold; the boundary is exclusive (age exactly equal to
the threshold is stale, one second older is stale, one second younger is
fresh). -/
theorem freshness_evaluator_spec :
    (∀ now th : ℚ, is_data_fresh Option.none now th = false) ∧
    (∀ now th : ℚ, is_data_fresh (Option.some ⟨Option.none⟩) now th = false) ∧
    (∀ now th ts : ℚ,
      is_data_fresh (Option.some ⟨Option.some ts⟩) now th = true ↔ now - ts < th) ∧
    (∀ now th : ℚ,
      is_data_fresh (Option.some ⟨Option.some (now - th)⟩) now th = false) ∧
    (∀ now th : ℚ,
      is_data_fresh (Option.some ⟨Option.some (now - th - 1)⟩) now th = false) ∧
    (∀ now th : ℚ,
      is_data_fresh (Option.some ⟨Option.some (now - th + 1)⟩) now th = true) := by
  refine ⟨fun _ _ => rfl, fun _ _ => rfl, ?_, ?_, ?_, ?_⟩
  · intro now th ts
    simp [is_data_fresh]
  · intro now th
    simp [is_data_fresh]
  · intro now th
    simp [is_data_fresh]
    linarith
  · intro now th
    simp [is_data_fresh]
    linarith

/-! ## Claims C3, C4 and C10 -/

/-- Claim C3: a deviation WARNING log is created exactly on a normal→deviating
transition, a resolved INFO log exactly on a deviating→normal transition, and
no log is created on a cycle where the metric's state does not change; a
constant 15%-over-threshold deviation over 10 consecutive cycles yields
exactly one WARNING log, and the first subsequent normal reading yields
exactly one INFO log. -/
theorem deviation_transition_log_spec :
    (∀ (m : Metric) (s : Bool) (rv tv : Option ℚ) (th : ℚ),
      ((deviation_step m s rv tv th).2.map LogCreate.message_type =
          Option.some Severity.WARNING ↔
        (s = false ∧ is_currently_deviating rv tv th = true)) ∧
      ((deviation_step m s rv tv th).2.map LogCreate.message_type =
          Option.some Severity.INFO ↔
        (s = true ∧ is_currently_deviating rv tv th = false)) ∧
      ((deviation_step m s rv tv th).2 = Option.none ↔
        (deviation_step m s rv tv th).1 = s)) ∧
    ((deviation_run Metric.current false
        (List.replicate 10 (Option.some (23 : ℚ), Option.some (20 : ℚ)) ++
          [(Option.some (20 : ℚ), Option.some (20 : ℚ))]) 10).2.map
        LogCreate.message_type =
      [Severity.WARNING, Severity.INFO]) := by
  constructor
  · intro m s rv tv th
    cases h : is_currently_deviating rv tv th <;> cases s <;>
      simp [deviation_step, h]
  · norm_num [deviation_run, deviation_step, is_currently_deviating, ratAbs,
      List.replicate_succ]

/-- Claim C4: while `error_active` is false, each bad status increments the
count and emits a WARNING reporting `count/threshold` as long as the count
stays below the threshold; the count reaching the threshold emits exactly one
ERROR log, sets `error_active` and resets the count; further bad statuses
while `error_active` is true emit no log and leave the state unchanged; a good
status emits exactly one resolved INFO log iff the count was positive or
`error_active` was set, and resets both; hence 10 consecutive bad predictions
yield 9 WARNING logs then exactly one ERROR log, further bad predictions add
nothing, and the next good prediction adds exactly one INFO log. -/
theorem prediction_tracker_spec :
    (∀ (m : Metric) (s : PredState) (v : PyValue),
      (pyEqNegOne v = true → s.error_active = false →
        s.count + 1 < PREDICTION_ERROR_THRESHOLD →
        handle_prediction_step m s v =
          (⟨s.count + 1, false⟩, Option.some
            ⟨Severity.WARNING, prediction_warning_desc m (s.count + 1),
              "potenziell fehlerhaft", false⟩)) ∧
      (pyEqNegOne v = true → s.error_active = false →
        PREDICTION_ERROR_THRESHOLD ≤ s.count + 1 →
        handle_prediction_step m s v =
          (⟨0, true⟩, Option.some
            ⟨Severity.ERROR, prediction_error_desc m, "fehlerhaft", true⟩)) ∧
      (pyEqNegOne v = true → s.error_active = true →
        handle_prediction_step m s v = (s, Option.none)) ∧
      (pyEqNegOne v = false → (decide (0 < s.count) || s.error_active) = true →
        handle_prediction_step m s v =
          (⟨0, false⟩, Option.some
            ⟨Severity.INFO, prediction_resolved_desc m, "normal", false⟩)) ∧
      (pyEqNegOne v = false → s.count = 0 → s.error_active = false →
        handle_prediction_step m s v = (⟨0, false⟩, Option.none))) ∧
    ((handle_prediction_run Metric.current ⟨0, false⟩
        (List.replicate 12 (PyValue.num (-1)) ++ [PyValue.num 1])).2.map
        LogCreate.message_type =
      List.replicate 9 Severity.WARNING ++ [Severity.ERROR, Severity.INFO]) := by
  constructor
  · intro m s v
    refine ⟨?_, ?_, ?_, ?_, ?_⟩
    · intro h1 h2 h3
      simp [handle_prediction_step, h1, h2, Nat.not_le.mpr h3]
    · intro h1 h2 h3
      simp [handle_prediction_step, h1, h2, h3]
    · intro h1 h2
      simp [handle_prediction_step, h1, h2]
    · intro h1 h2
      simp [handle_prediction_step, h1, h2]
    · intro h1 h2 h3
      simp [handle_prediction_step, h1, h2, h3]
  · norm_num [handle_prediction_run, handle_prediction_step, pyEqNegOne,
      PREDICTION_ERROR_THRESHOLD, List.replicate_succ]

/-- Witness for C4: from a clean-but-counting state `(3, false)`, a bad status
increments to 4 and emits the 4/10 WARNING. -/
theorem prediction_tracker_spec_witness :
    handle_prediction_step Metric.torque ⟨3, false⟩ (PyValue.num (-1)) =
      (⟨4, false⟩, Option.some
        ⟨Severity.WARNING, prediction_warning_desc Metric.torque 4,
          "potenziell fehlerhaft", false⟩) :=
  (prediction_tracker_spec.1 Metric.torque ⟨3, false⟩ (PyValue.num (-1))).1
    (by decide) rfl (by decide)

/-- Claim C10: exactly the payload value `-1` counts as a bad prediction; any
other value — absent field, other numbers, strings, bools — takes the good
branch and resets the metric's count to 0 and `error_active` to false. -/
theorem bad_prediction_sentinel :
    (∀ q : ℚ, pyEqNegOne (PyValue.num q) = true ↔ q = -1) ∧
    (pyEqNegOne PyValue.none = false) ∧
    (∀ s : String, pyEqNegOne (PyValue.str s) = false) ∧
    (∀ b : Bool, pyEqNegOne (PyValue.bool b) = false) ∧
    (∀ (m : Metric) (s : PredState) (v : PyValue), pyEqNegOne v = false →
      (handle_prediction_step m s v).1.count = 0 ∧
      (handle_prediction_step m s v).1.error_active = false) := by
  refine ⟨?_, rfl, fun _ => rfl, fun _ => rfl, ?_⟩
  · intro q
    simp [pyEqNegOne]
  · intro m s v h
    simp [handle_prediction_step, h]

/-- Witness for C10: a missing `value` field while an error is active resets
the state. -/
theorem bad_prediction_sentinel_witness :
    (handle_prediction_step Metric.current ⟨7, true⟩ PyValue.none).1.count = 0 ∧
    (handle_prediction_step Metric.current ⟨7, true⟩ PyValue.none).1.error_active = false :=
  bad_prediction_sentinel.2.2.2.2 Metric.current ⟨7, true⟩ PyValue.none rfl

/-! ## Claims C5 and C6 -/

/-- Claim C5 (code bug): persisting a prediction message fails.
`_save_prediction_data` passes the keyword `status_value` to a model that has
no such field, so `PredictionData.objects.create` raises `TypeError` for every
payload; the handler therefore aborts before the plot notification and the
dashboard update — no record is stored and the fan-out is never triggered.
Evaluated at the failing input `value = -1` on a prediction topic. -/
theorem prediction_save_rejected :
    save_prediction_data (PyValue.num (-1)) Metric.temperature =
      Except.error ("status_value is an invalid keyword argument") ∧
    handle_prediction_persist_and_notify (PyValue.num (-1)) Metric.temperature =
      Except.error ("status_value is an invalid keyword argument") ∧
    on_message_async true (Topic.prediction Metric.temperature) (PyValue.num (-1)) =
      { raised := false, handled := true, plot_notifications := 0,
        dashboard_updates := 0 } :=
  ⟨rfl, rfl, rfl⟩

/-- Claim C6 (code bug): the numeric fields of a live payload round-trip
unchanged and `make_aware_from_iso` normalizes a zoned timestamp to UTC, but
the stored `timestamp` is the ingestion wall-clock time, not the payload's
timestamp, because `LiveData.timestamp` has `auto_now_add=True`. Evaluated at
the failing input: payload `{current = 12.3, voltage = 230.1,
timestamp = "...12:00:00+02:00"}` (local value 43200 s, offset 7200 s, i.e.
UTC instant 36000 s) ingested at wall-clock 99999 s. A payload lacking a
timestamp is stored with the ingestion wall-clock time. -/
theorem live_roundtrip_timestamp_bug :
    (save_live_data
        ⟨Option.some (ISOTimestamp.withOffset 43200 7200), Option.some (123/10),
          Option.some (2301/10), Option.none, Option.none, Option.none,
          Option.none, Option.none⟩ 99999).current = Option.some (123/10) ∧
    (save_live_data
        ⟨Option.some (ISOTimestamp.withOffset 43200 7200), Option.some (123/10),
          Option.some (2301/10), Option.none, Option.none, Option.none,
          Option.none, Option.none⟩ 99999).voltage = Option.some (2301/10) ∧
    make_aware_from_iso (ISOTimestamp.withOffset 43200 7200) = 36000 ∧
    (save_live_data
        ⟨Option.some (ISOTimestamp.withOffset 43200 7200), Option.some (123/10),
          Option.some (2301/10), Option.none, Option.none, Option.none,
          Option.none, Option.none⟩ 99999).timestamp = 99999 ∧
    (save_live_data
        ⟨Option.some (ISOTimestamp.withOffset 43200 7200), Option.some (123/10),
          Option.some (2301/10), Option.none, Option.none, Option.none,
          Option.none, Option.none⟩ 99999).timestamp -
        make_aware_from_iso (ISOTimestamp.withOffset 43200 7200) = 63999 ∧
    (save_live_data
        ⟨Option.none, Option.some (123/10), Option.none, Option.none,
          Option.none, Option.none, Option.none, Option.none⟩ 12345).timestamp =
      12345 := by
  refine ⟨rfl, rfl, by norm_num [make_aware_from_iso], rfl, ?_, rfl⟩
  norm_num [save_live_data, auto_now_add_store, make_aware_from_iso]

/-! ## Claims C1 and C2 -/

/-- Claim C1: when any required upstream input (raw current, raw temperature,
raw torque, twin sample) is missing or stale per the freshness evaluator, the
composite status is `detected = true` with the insufficient/stale-data
message, no deviation logs are created, and the deviation state is left
untouched — regardless of every other signal in the input, in particular of
any unacknowledged ERROR log entry. -/
theorem stale_data_short_circuits (inp : AggInput)
    (h : insufficient_or_stale inp = true) :
    (process_and_notify_dashboard inp).status = ⟨true, insufficient_data_message⟩ ∧
    (process_and_notify_dashboard inp).logs_to_create = [] ∧
    (process_and_notify_dashboard inp).last_anomaly_state = inp.last_anomaly_state := by
  simp [process_and_notify_dashboard, h]

/-- Witness for C1: with the raw-current row missing and an unacknowledged
ERROR log present, the composite status is the staleness one. -/
theorem stale_data_short_circuits_witness :
    insufficient_or_stale stale_error_input = true ∧
    stale_error_input.malfunction_logs.any
      (fun l => !l.acknowledged &&
        (match l.message_type with
         | Severity.ERROR => true
         | _ => false)) = true ∧
    (process_and_notify_dashboard stale_error_input).status =
      ⟨true, insufficient_data_message⟩ :=
  ⟨rfl, rfl, (stale_data_short_circuits stale_error_input rfl).1⟩

theorem find_eq_head_of_filter {α : Type} (p : α → Bool) (l : List α) :
    l.find? p = (l.filter p).head? := by
  induction l with
  | nil => rfl
  | cons a as ih =>
    rw [List.find?_cons, List.filter_cons]
    cases h : p a
    · exact ih
    · rfl

/-- Counterexample to C2 as stated: an unacknowledged ERROR entry exists (30 s
old, well inside any recent window), yet the composite message is the WARNING
one, because the code picks the most recent unacknowledged ERROR-or-WARNING
entry with no severity precedence and no time window. -/
theorem error_precedence_cex :
    newer_warning_input.malfunction_logs.any
      (fun l => !l.acknowledged &&
        (match l.message_type with
         | Severity.ERROR => true
         | _ => false)) = true ∧
    insufficient_or_stale newer_warning_input = false ∧
    (process_and_notify_dashboard newer_warning_input).status.message =
      warning_message ("Warnband gerissen") ∧
    decide (warning_message ("Warnband gerissen") =
      critical_message ("Motor blockiert")) = false := by
  have hst : insufficient_or_stale newer_warning_input = false := by
    norm_num [insufficient_or_stale, is_data_fresh, raw_timed, twin_timed,
      newer_warning_input]
  have hf : (unacknowledged_errors_warnings newer_warning_input.malfunction_logs).find?
      (fun l => !is_prediction_related l || prediction_anomaly_active newer_warning_input) =
      Option.some ⟨990, Severity.WARNING, "Warnband gerissen", false⟩ := rfl
  refine ⟨rfl, hst, ?_, by decide⟩
  simp [process_and_notify_dashboard, hst, hf, warning_message]

/-- Claim C2, amended: with all required inputs fresh, the composite message is
determined by the first entry — in newest-first order, with no time window —
of the unacknowledged ERROR/WARNING log rows, after skipping
prediction-related entries while no prediction anomaly is active: the message
is "KRITISCHE STÖRUNG: <description>" when that entry is an ERROR and
"WARNUNG: <description>" when it is a WARNING. Recency, not severity, selects
the entry. -/
theorem unacknowledged_log_message (inp : AggInput) (l : MalLog)
    (hfresh : insufficient_or_stale inp = false)
    (hl : ((unacknowledged_errors_warnings inp.malfunction_logs).filter
        (fun e => !(is_prediction_related e && !prediction_anomaly_active inp))).head? =
        Option.some l) :
    (process_and_notify_dashboard inp).status =
      if l.message_type = Severity.ERROR then
        ⟨true, critical_message l.description⟩
      else
        ⟨true, warning_message l.description⟩ := by
  have hf : (unacknowledged_errors_warnings inp.malfunction_logs).find?
      (fun e => !(is_prediction_related e && !prediction_anomaly_active inp)) =
      Option.some l := by
    rw [find_eq_head_of_filter]
    exact hl
  have hpred : (fun e => !(is_prediction_related e && !prediction_anomaly_active inp)) =
      (fun e => !is_prediction_related e || prediction_anomaly_active inp) := by
    funext e
    cases is_prediction_related e <;> cases prediction_anomaly_active inp <;> rfl
  rw [hpred] at hf
  by_cases he : l.message_type = Severity.ERROR <;>
    simp [process_and_notify_dashboard, hfresh, hf, he]

/-- Witness for the amended C2: a fresh input whose most recent unacknowledged
ERROR/WARNING row is an ERROR yields the CRITICAL message. -/
theorem unacknowledged_log_message_witness :
    (process_and_notify_dashboard single_error_input).status =
      ⟨true, critical_message ("Motor blockiert")⟩ := by
  have h := unacknowledged_log_message single_error_input
      ⟨970, Severity.ERROR, "Motor blockiert", false⟩
      (by norm_num [insufficient_or_stale, is_data_fresh, raw_timed, twin_timed,
        single_error_input])
      rfl
  simpa using h

/-! ## Claims C9 and C5 -/

/-- Counterexample to C9 as stated: with no motor record configured, a live
message is dropped at lines 168-171 — no exception is raised, but the payload
is not handled and no dashboard update is produced, so the condition is not
surfaced as a composite anomaly for that message. -/
theorem no_motor_drops_message_cex :
    (on_message_async false Topic.live PyValue.none).raised = false ∧
    (on_message_async false Topic.live PyValue.none).handled = false ∧
    (on_message_async false Topic.live PyValue.none).dashboard_updates = 0 ∧
    (on_message_async false Topic.live PyValue.none).plot_notifications = 0 :=
  ⟨rfl, rfl, rfl, rfl⟩

/-- Claim C9, amended: for every inbound message processed while no motor
record is configured, the router logs the condition and drops the message
without raising an exception: no handler runs, no plot notification and no
dashboard update is produced for that message. -/
theorem no_motor_drops_message :
    ∀ (t : Topic) (v : PyValue),
      on_message_async false t v =
        { raised := false, handled := false, plot_notifications := 0,
          dashboard_updates := 0 } := by
  intro t v
  rfl

end IotMotor
